import Mathlib

/-!
Shallow embedding of the WazeApp RunPod backend
(`src/backend/runpod-handler.py` and `src/backend/runpod-simple.py`).

Python dictionaries with a known key set are embedded as structures with
`Option`-valued fields (so `dict.get(key, default)` becomes
`field.getD default`); the JSON-like response payloads are embedded as a
small `JValue` type of mappings so that claims about which fields a
response contains can be stated.  External library calls (loading the
tokenizer and weights, tokenizing, generating, decoding) are the oracle
fields of an `Env`: each returns `Except String _`, an `error` modelling a
raised Python exception.  The three module globals (`model`, `tokenizer`,
`model_loaded`) are a `ModelState` threaded explicitly through
`load_model` and `handler`.  Python floats that are merely passed through
(temperature, top_p, wall-clock times) are embedded as `Rat`; no float
arithmetic occurs in the source.
-/

namespace WazeApp

/-- A conversation turn: a Python dict possibly holding "role" and
"content" keys, each a string when present. -/
structure Message where
  role : Option String
  content : Option String
deriving DecidableEq

/-- Python `message.get("role", "")`. -/
def Message.getRole (m : Message) : String := m.role.getD ""

/-- Python `message.get("content", "")`. -/
def Message.getContent (m : Message) : String := m.content.getD ""

/-- The job "input" dict: the keys the handlers read, each optional. -/
structure JobInput where
  messages : Option (List Message)
  max_tokens : Option Int
  temperature : Option Rat
  top_p : Option Rat

/-- The default `{}` used by `job.get("input", {})`. -/
def emptyInput : JobInput := ⟨none, none, none, none⟩

/-- A RunPod job: a dict possibly holding an "input" key. -/
structure Job where
  input : Option JobInput

/-- JSON-like values, enough for the response payloads of both handlers. -/
inductive JValue where
  | str : String → JValue
  | int : Int → JValue
  | rat : Rat → JValue
  | list : List JValue → JValue
  | obj : List (String × JValue) → JValue

/-- Field lookup in a mapping; `none` on non-mappings and missing keys. -/
def JValue.getField : JValue → String → Option JValue
  | JValue.obj fields, key => List.lookup key fields
  | _, _ => none

/-- Whether a mapping contains the given key. -/
def JValue.hasField (j : JValue) (key : String) : Bool :=
  (j.getField key).isSome

/-- Abstract handle for the loaded tokenizer object. -/
structure Tokenizer where
  id : Nat

/-- Abstract handle for the loaded model weights. -/
structure ModelWeights where
  id : Nat

/-- The process-wide globals of `runpod-handler.py` (lines 13-15):
`model`, `tokenizer`, `model_loaded`. -/
structure ModelState where
  model : Option ModelWeights
  tokenizer : Option Tokenizer
  model_loaded : Bool

/-- Initial global state: `model = None`, `tokenizer = None`,
`model_loaded = False`. -/
def initialState : ModelState := ⟨none, none, false⟩

/-- The external world: each third-party call the handler makes, as an
oracle.  An `Except.error` models the call raising a Python exception
with that message.  `execTime` and `genTime` model the wall-clock
durations measured with `time.time()`. -/
structure Env where
  loadTokenizer : Except String Tokenizer
  loadModelWeights : Except String ModelWeights
  tokenize : String → Except String (List Nat)
  generate : List Nat → Int → Rat → Rat → Except String (List Nat)
  decode : List Nat → Except String String
  execTime : Rat
  genTime : Rat

/-- `load_model()` (runpod-handler.py lines 17-49): returns immediately
when `model_loaded` is set; otherwise loads the tokenizer, then the
model, then sets `model_loaded = True`.  An exception from either load
is re-raised (`Except.error`); note the tokenizer global is already
assigned when the model load fails, exactly as in the Python. -/
def load_model (env : Env) (st : ModelState) : Except String Unit × ModelState :=
  if st.model_loaded then
    (Except.ok (), st)
  else
    match env.loadTokenizer with
    | Except.error e => (Except.error e, st)
    | Except.ok tok =>
      match env.loadModelWeights with
      | Except.error e => (Except.error e, { st with tokenizer := some tok })
      | Except.ok m =>
        (Except.ok (), { model := some m, tokenizer := some tok, model_loaded := true })

/-- `format_messages(messages)` (runpod-handler.py lines 51-68), with the
`prompt +=` loop embedded as a `foldl`. -/
def format_messages (messages : List Message) : String :=
  (messages.foldl
    (fun prompt message =>
      let role := message.getRole
      let content := message.getContent
      if role = "system" then prompt ++ ("<|system|>\n" ++ content ++ "<|end|>\n")
      else if role = "user" then prompt ++ ("<|user|>\n" ++ content ++ "<|end|>\n")
      else if role = "assistant" then prompt ++ ("<|assistant|>\n" ++ content ++ "<|end|>\n")
      else prompt)
    "") ++ "<|assistant|>\n"

/-- Python `sub in s` for a non-empty `sub`, via `split`. -/
def strContains (s sub : String) : Bool := (s.splitOn sub).length != 1

/-- The dict returned from the `except` branch of `handler`
(runpod-handler.py lines 157-160). -/
def errorResult (msg : String) (t : Rat) : JValue :=
  JValue.obj [("error", JValue.str msg), ("execution_time", JValue.rat t)]

/-- The "usage" sub-dict shared by both handlers. -/
def usageObj (prompt_tokens completion_tokens total_tokens : Nat) : JValue :=
  JValue.obj [
    ("prompt_tokens", JValue.int prompt_tokens),
    ("completion_tokens", JValue.int completion_tokens),
    ("total_tokens", JValue.int total_tokens)]

/-- The success dict of `handler` (runpod-handler.py lines 134-152). -/
def successResult (response : String) (prompt_tokens completion_tokens : Nat)
    (t g : Rat) : JValue :=
  JValue.obj [
    ("choices", JValue.list [JValue.obj [
      ("message", JValue.obj [
        ("role", JValue.str "assistant"),
        ("content", JValue.str response)]),
      ("finish_reason", JValue.str "stop")]]),
    ("usage", usageObj prompt_tokens completion_tokens (prompt_tokens + completion_tokens)),
    ("model", JValue.str "deepseek-r1-distill-llama-8b"),
    ("execution_time", JValue.rat t),
    ("generation_time", JValue.rat g)]

/-- `handler(job)` (runpod-handler.py lines 70-160).  Any `Except.error`
from an oracle call falls to the `except` branch and becomes
`errorResult`; the returned pair carries the possibly-updated globals. -/
def handler (env : Env) (st : ModelState) (job : Job) : JValue × ModelState :=
  match load_model env st with
  | (Except.error e, st1) => (errorResult e env.execTime, st1)
  | (Except.ok _, st1) =>
    let input_data := job.input.getD emptyInput
    let messages := input_data.messages.getD []
    let max_tokens := input_data.max_tokens.getD 2048
    let temperature := input_data.temperature.getD (0.7 : Rat)
    let top_p := input_data.top_p.getD (0.9 : Rat)
    if messages.isEmpty then
      (JValue.obj [("error", JValue.str "No messages provided")], st1)
    else
      let prompt := format_messages messages
      match env.tokenize prompt with
      | Except.error e => (errorResult e env.execTime, st1)
      | Except.ok input_ids =>
        match env.generate input_ids max_tokens temperature top_p with
        | Except.error e => (errorResult e env.execTime, st1)
        | Except.ok output =>
          let response_tokens := output.drop input_ids.length
          match env.decode response_tokens with
          | Except.error e => (errorResult e env.execTime, st1)
          | Except.ok response0 =>
            let response :=
              if strContains response0 "<|end|>" then
                (response0.splitOn "<|end|>").headD ""
              else response0
            (successResult response.trim input_ids.length response_tokens.length
              env.execTime env.genTime, st1)

/-- Python `s.split()` (no separator): split on whitespace, dropping
empty pieces. -/
def pySplitWs (s : String) : List String :=
  (s.split Char.isWhitespace).filter (fun t => t ≠ "")

/-- Fallback message for `messages[-1]` (unused: only taken when the list
is non-empty). -/
def defaultMessage : Message := ⟨none, none⟩

/-- `handler(job)` of `runpod-simple.py` (lines 5-35).  Its body makes no
external call, so it is a pure function of the job. -/
def simple_handler (job : Job) : JValue :=
  let input_data := job.input.getD emptyInput
  let messages := input_data.messages.getD []
  if messages.isEmpty then
    JValue.obj [("error", JValue.str "No messages provided")]
  else
    let last_message := (messages.getLast?.getD defaultMessage).getContent
    let response := "Echo: " ++ last_message
    JValue.obj [
      ("choices", JValue.list [JValue.obj [
        ("message", JValue.obj [
          ("role", JValue.str "assistant"),
          ("content", JValue.str response)])]]),
      ("usage", usageObj (pySplitWs last_message).length (pySplitWs response).length
        ((pySplitWs last_message).length + (pySplitWs response).length))]

/-- Spec-side description of one message's contribution to the prompt
(claim C8's wording): a role-tagged block for the three known roles,
nothing for any other or missing role. -/
def messagePiece (m : Message) : String :=
  if m.getRole = "system" then "<|system|>\n" ++ m.getContent ++ "<|end|>\n"
  else if m.getRole = "user" then "<|user|>\n" ++ m.getContent ++ "<|end|>\n"
  else if m.getRole = "assistant" then "<|assistant|>\n" ++ m.getContent ++ "<|end|>\n"
  else ""

/-- Spec-side description of the whole prompt (claim C8's wording): the
in-order concatenation of the pieces, then a final assistant header. -/
def specPrompt : List Message → String
  | [] => "<|assistant|>\n"
  | m :: rest => messagePiece m ++ specPrompt rest

/-- Whether an external call returned normally (no exception). -/
def exceptOk {α : Type} : Except String α → Bool
  | Except.ok _ => true
  | Except.error _ => false

/-- Spec-side shape check (claim C1's wording): a "message" mapping with
string "role" and "content" fields. -/
def isMessageObj : JValue → Bool
  | JValue.obj fields =>
    (match List.lookup "role" fields with
     | some (JValue.str _) => true
     | _ => false) &&
    (match List.lookup "content" fields with
     | some (JValue.str _) => true
     | _ => false)
  | _ => false

/-- Spec-side shape check: a choice whose "message" is a role/content
mapping. -/
def isChoiceObj (j : JValue) : Bool :=
  match j.getField "message" with
  | some m => isMessageObj m
  | none => false

/-- Spec-side shape check: a "usage" mapping with the three integer token
counts. -/
def isUsageObj : JValue → Bool
  | JValue.obj fields =>
    (match List.lookup "prompt_tokens" fields with
     | some (JValue.int _) => true
     | _ => false) &&
    (match List.lookup "completion_tokens" fields with
     | some (JValue.int _) => true
     | _ => false) &&
    (match List.lookup "total_tokens" fields with
     | some (JValue.int _) => true
     | _ => false)
  | _ => false

/-- Spec-side shape check (claim C1's wording): a mapping with a
"choices" list of exactly one well-shaped choice and a well-shaped
"usage" mapping. -/
def isSuccessShape (j : JValue) : Bool :=
  (match j.getField "choices" with
   | some (JValue.list [c]) => isChoiceObj c
   | _ => false) &&
  (match j.getField "usage" with
   | some u => isUsageObj u
   | _ => false)

/-- The messages list a job carries, after both `.get` defaults. -/
def jobMessages (job : Job) : List Message :=
  (job.input.getD emptyInput).messages.getD []

/-- The effective max_tokens of a job (default 2048). -/
def jobMaxTokens (job : Job) : Int :=
  (job.input.getD emptyInput).max_tokens.getD 2048

/-- The effective temperature of a job (default 0.7). -/
def jobTemperature (job : Job) : Rat :=
  (job.input.getD emptyInput).temperature.getD (0.7 : Rat)

/-- The effective top_p of a job (default 0.9). -/
def jobTopP (job : Job) : Rat :=
  (job.input.getD emptyInput).top_p.getD (0.9 : Rat)

/-- An exception message was surfaced as the "error" field and no
"choices" field is present. -/
def errorSurfaced (r : JValue) (e : String) : Prop :=
  r.getField "error" = some (JValue.str e) ∧ r.hasField "choices" = false

/-- A concrete oracle on which every external call succeeds. -/
def testEnv : Env where
  loadTokenizer := Except.ok ⟨0⟩
  loadModelWeights := Except.ok ⟨0⟩
  tokenize := fun _ => Except.ok [1, 2, 3]
  generate := fun ids _ _ _ => Except.ok (ids ++ [7, 8])
  decode := fun _ => Except.ok "hello"
  execTime := 0
  genTime := 0

/-- A concrete one-message job. -/
def job1 : Job := ⟨some ⟨some [⟨some "user", some "hi"⟩], none, none, none⟩⟩

/-- A job with no "input" key at all. -/
def jobEmpty : Job := ⟨none⟩

/-- A state in which the model has already been loaded. -/
def loadedState : ModelState := ⟨some ⟨0⟩, some ⟨0⟩, true⟩

/-- Oracle whose tokenizer load raises. -/
def envTokLoadFail : Env := { testEnv with loadTokenizer := Except.error "boom1" }

/-- Oracle whose model-weights load raises. -/
def envModLoadFail : Env := { testEnv with loadModelWeights := Except.error "boom2" }

/-- Oracle whose tokenize call raises. -/
def envTokenizeFail : Env := { testEnv with tokenize := fun _ => Except.error "boom3" }

/-- Oracle whose generate call raises. -/
def envGenerateFail : Env := { testEnv with generate := fun _ _ _ _ => Except.error "boom4" }

/-- Oracle whose decode call raises. -/
def envDecodeFail : Env := { testEnv with decode := fun _ => Except.error "boom5" }

theorem format_messages_foldl (ms : List Message) (acc : String) :
    (ms.foldl
      (fun prompt message =>
        let role := message.getRole
        let content := message.getContent
        if role = "system" then prompt ++ ("<|system|>\n" ++ content ++ "<|end|>\n")
        else if role = "user" then prompt ++ ("<|user|>\n" ++ content ++ "<|end|>\n")
        else if role = "assistant" then prompt ++ ("<|assistant|>\n" ++ content ++ "<|end|>\n")
        else prompt)
      acc) ++ "<|assistant|>\n" = acc ++ specPrompt ms := by
  induction ms generalizing acc with
  | nil => simp [specPrompt]
  | cons m rest ih =>
    simp only [List.foldl_cons, specPrompt]
    rw [ih]
    by_cases hs : m.getRole = "system"
    · simp [messagePiece, hs, String.append_assoc]
    · by_cases hu : m.getRole = "user"
      · simp [messagePiece, hs, hu, String.append_assoc]
      · by_cases ha : m.getRole = "assistant"
        · simp [messagePiece, hs, hu, ha, String.append_assoc]
        · simp [messagePiece, hs, hu, ha]

/-- C8: `format_messages` returns the in-order concatenation of the
role-tagged blocks for system/user/assistant messages, followed by a
final assistant header; messages with any other (or missing) role are
silently dropped. -/
theorem format_messages_spec (messages : List Message) :
    format_messages messages = specPrompt messages := by
  have h := format_messages_foldl messages ""
  simpa [format_messages] using h

/-- C5: max_tokens, temperature and top_p are optional; a job omitting
any of them behaves exactly as if the defaults 2048, 0.7 and 0.9 had
been supplied for the omitted ones. -/
theorem handler_param_defaults (env : Env) (st : ModelState)
    (msgs : Option (List Message)) (mt : Option Int) (tmp tp : Option Rat) :
    handler env st ⟨some ⟨msgs, mt, tmp, tp⟩⟩ =
      handler env st ⟨some ⟨msgs, some (mt.getD 2048),
        some (tmp.getD (0.7 : Rat)), some (tp.getD (0.9 : Rat))⟩⟩ := by
  cases mt <;> cases tmp <;> cases tp <;> rfl

theorem handler_ok_nonempty (env : Env) (st st1 : ModelState) (job : Job)
    (hlm : load_model env st = (Except.ok (), st1))
    (hmsgs : jobMessages job ≠ []) :
    handler env st job =
      match env.tokenize (format_messages (jobMessages job)) with
      | Except.error e => (errorResult e env.execTime, st1)
      | Except.ok input_ids =>
        match env.generate input_ids (jobMaxTokens job) (jobTemperature job) (jobTopP job) with
        | Except.error e => (errorResult e env.execTime, st1)
        | Except.ok output =>
          match env.decode (output.drop input_ids.length) with
          | Except.error e => (errorResult e env.execTime, st1)
          | Except.ok response0 =>
            (successResult
              (if strContains response0 "<|end|>" then
                (response0.splitOn "<|end|>").headD ""
              else response0).trim
              input_ids.length (output.drop input_ids.length).length
              env.execTime env.genTime, st1) := by
  unfold handler
  rw [hlm]
  dsimp only
  rw [if_neg]
  · rfl
  · simp only [List.isEmpty_iff]
    exact hmsgs

theorem handler_fst_cases (env : Env) (st : ModelState) (job : Job) :
    (∃ e, (handler env st job).1 = errorResult e env.execTime) ∨
    (handler env st job).1 = JValue.obj [("error", JValue.str "No messages provided")] ∨
    (∃ resp pt ct, (handler env st job).1 = successResult resp pt ct env.execTime env.genTime) := by
  unfold handler
  rcases load_model env st with ⟨r, st1⟩
  cases r with
  | error e => exact Or.inl ⟨e, rfl⟩
  | ok u =>
    dsimp only
    split
    · exact Or.inr (Or.inl rfl)
    · split
      · exact Or.inl ⟨_, rfl⟩
      · split
        · exact Or.inl ⟨_, rfl⟩
        · split
          · exact Or.inl ⟨_, rfl⟩
          · exact Or.inr (Or.inr ⟨_, _, _, rfl⟩)

theorem handler_snd (env : Env) (st : ModelState) (job : Job) :
    (handler env st job).2 = (load_model env st).2 := by
  unfold handler
  rcases load_model env st with ⟨r, st1⟩
  cases r with
  | error e => rfl
  | ok u =>
    dsimp only
    split
    · rfl
    · split
      · rfl
      · split
        · rfl
        · split
          · rfl
          · rfl

/-- C1: a job carrying a non-empty messages list, processed when the
model loads fine and no external call raises, yields a response of the
expected shape — a "choices" list with exactly one choice whose
"message" holds role and content, and a "usage" mapping with integer
token counts; the pure echo handler yields the same shape
unconditionally. -/
theorem handler_success_shape (env : Env) (st : ModelState) (job : Job)
    (hmsgs : jobMessages job ≠ [])
    (hload : (load_model env st).1 = Except.ok ())
    (htok : ∀ p, exceptOk (env.tokenize p) = true)
    (hgen : ∀ ids mt tmp tp, exceptOk (env.generate ids mt tmp tp) = true)
    (hdec : ∀ ts, exceptOk (env.decode ts) = true) :
    isSuccessShape (handler env st job).1 = true ∧
    isSuccessShape (simple_handler job) = true := by
  constructor
  · rcases hlm : load_model env st with ⟨r, st1⟩
    rw [hlm] at hload
    cases r with
    | error e => exact Except.noConfusion hload
    | ok u =>
      cases u
      rw [handler_ok_nonempty env st st1 job hlm hmsgs]
      cases htk : env.tokenize (format_messages (jobMessages job)) with
      | error e =>
        have h2 := htok (format_messages (jobMessages job))
        rw [htk] at h2
        exact Bool.noConfusion h2
      | ok ids =>
        dsimp only
        cases hg : env.generate ids (jobMaxTokens job) (jobTemperature job) (jobTopP job) with
        | error e =>
          have h2 := hgen ids (jobMaxTokens job) (jobTemperature job) (jobTopP job)
          rw [hg] at h2
          exact Bool.noConfusion h2
        | ok output =>
          dsimp only
          cases hd : env.decode (output.drop ids.length) with
          | error e =>
            have h2 := hdec (output.drop ids.length)
            rw [hd] at h2
            exact Bool.noConfusion h2
          | ok r0 => rfl
  · dsimp only [simple_handler]
    rw [if_neg]
    · rfl
    · simp only [List.isEmpty_iff]
      exact hmsgs

/-- Witness for C1: the shape check holds on a concrete one-message job
under a concrete all-succeeding oracle. -/
theorem handler_success_shape_witness :
    isSuccessShape (handler testEnv initialState job1).1 = true ∧
    isSuccessShape (simple_handler job1) = true :=
  handler_success_shape testEnv initialState job1 (by decide) rfl
    (fun _ => rfl) (fun _ _ _ _ => rfl) (fun _ => rfl)

/-- C2: a job whose messages list is empty or absent gets back a mapping
with an "error" field and no "choices" field, from both handlers. -/
theorem handler_empty_messages_error (env : Env) (st : ModelState) (job : Job)
    (hempty : jobMessages job = []) :
    ((handler env st job).1.hasField "error" = true ∧
     (handler env st job).1.hasField "choices" = false) ∧
    ((simple_handler job).hasField "error" = true ∧
     (simple_handler job).hasField "choices" = false) := by
  constructor
  · unfold handler
    rcases load_model env st with ⟨r, st1⟩
    cases r with
    | error e => exact ⟨rfl, rfl⟩
    | ok u =>
      dsimp only
      rw [if_pos]
      · exact ⟨rfl, rfl⟩
      · simp only [List.isEmpty_iff]
        exact hempty
  · dsimp only [simple_handler]
    rw [if_pos]
    · exact ⟨rfl, rfl⟩
    · simp only [List.isEmpty_iff]
      exact hempty

/-- Witness for C2 on the job with no "input" key, under a concrete
oracle. -/
theorem handler_empty_messages_error_witness :
    ((handler testEnv initialState jobEmpty).1.hasField "error" = true ∧
     (handler testEnv initialState jobEmpty).1.hasField "choices" = false) ∧
    ((simple_handler jobEmpty).hasField "error" = true ∧
     (simple_handler jobEmpty).hasField "choices" = false) :=
  handler_empty_messages_error testEnv initialState jobEmpty rfl

/-- C3: an exception raised by any external call — tokenizer load, model
load, tokenize, generate, decode — is caught at the top of `handler`
and surfaced as the "error" field of the returned mapping, with no
"choices" field; the handler itself is a total function, so it never
propagates an exception, and every kind of failure is reported through
the same single error shape. -/
theorem handler_exception_surfaced (env : Env) (st : ModelState) (job : Job) (e : String) :
    (st.model_loaded = false → env.loadTokenizer = Except.error e →
      errorSurfaced (handler env st job).1 e) ∧
    (∀ tok, st.model_loaded = false → env.loadTokenizer = Except.ok tok →
      env.loadModelWeights = Except.error e →
      errorSurfaced (handler env st job).1 e) ∧
    ((load_model env st).1 = Except.ok () → jobMessages job ≠ [] →
      env.tokenize (format_messages (jobMessages job)) = Except.error e →
      errorSurfaced (handler env st job).1 e) ∧
    (∀ ids, (load_model env st).1 = Except.ok () → jobMessages job ≠ [] →
      env.tokenize (format_messages (jobMessages job)) = Except.ok ids →
      env.generate ids (jobMaxTokens job) (jobTemperature job) (jobTopP job) = Except.error e →
      errorSurfaced (handler env st job).1 e) ∧
    (∀ ids output, (load_model env st).1 = Except.ok () → jobMessages job ≠ [] →
      env.tokenize (format_messages (jobMessages job)) = Except.ok ids →
      env.generate ids (jobMaxTokens job) (jobTemperature job) (jobTopP job) = Except.ok output →
      env.decode (output.drop ids.length) = Except.error e →
      errorSurfaced (handler env st job).1 e) := by
  refine ⟨?_, ?_, ?_, ?_, ?_⟩
  · intro hml htk
    have hl : load_model env st = (Except.error e, st) := by
      simp [load_model, hml, htk]
    unfold handler
    rw [hl]
    exact ⟨rfl, rfl⟩
  · intro tok hml htk hmod
    have hl : load_model env st = (Except.error e, { st with tokenizer := some tok }) := by
      simp [load_model, hml, htk, hmod]
    unfold handler
    rw [hl]
    exact ⟨rfl, rfl⟩
  · intro hload hmsgs htk
    rcases hlm : load_model env st with ⟨r, st1⟩
    rw [hlm] at hload
    cases r with
    | error e2 => exact Except.noConfusion hload
    | ok u =>
      cases u
      rw [handler_ok_nonempty env st st1 job hlm hmsgs, htk]
      exact ⟨rfl, rfl⟩
  · intro ids hload hmsgs htk hg
    rcases hlm : load_model env st with ⟨r, st1⟩
    rw [hlm] at hload
    cases r with
    | error e2 => exact Except.noConfusion hload
    | ok u =>
      cases u
      rw [handler_ok_nonempty env st st1 job hlm hmsgs, htk]
      dsimp only
      rw [hg]
      exact ⟨rfl, rfl⟩
  · intro ids output hload hmsgs htk hg hd
    rcases hlm : load_model env st with ⟨r, st1⟩
    rw [hlm] at hload
    cases r with
    | error e2 => exact Except.noConfusion hload
    | ok u =>
      cases u
      rw [handler_ok_nonempty env st st1 job hlm hmsgs, htk]
      dsimp only
      rw [hg]
      dsimp only
      rw [hd]
      exact ⟨rfl, rfl⟩

/-- Witness for C3: each of the five failure points, on a concrete job
and state, surfaces its message in the "error" field. -/
theorem handler_exception_surfaced_witness :
    errorSurfaced (handler envTokLoadFail initialState job1).1 "boom1" ∧
    errorSurfaced (handler envModLoadFail initialState job1).1 "boom2" ∧
    errorSurfaced (handler envTokenizeFail initialState job1).1 "boom3" ∧
    errorSurfaced (handler envGenerateFail initialState job1).1 "boom4" ∧
    errorSurfaced (handler envDecodeFail initialState job1).1 "boom5" :=
  ⟨(handler_exception_surfaced envTokLoadFail initialState job1 "boom1").1 rfl rfl,
   (handler_exception_surfaced envModLoadFail initialState job1 "boom2").2.1 ⟨0⟩ rfl rfl rfl,
   (handler_exception_surfaced envTokenizeFail initialState job1 "boom3").2.2.1
     rfl (by decide) rfl,
   (handler_exception_surfaced envGenerateFail initialState job1 "boom4").2.2.2.1
     [1, 2, 3] rfl (by decide) rfl rfl,
   (handler_exception_surfaced envDecodeFail initialState job1 "boom5").2.2.2.2
     [1, 2, 3] [1, 2, 3, 7, 8] rfl (by decide) rfl rfl rfl⟩

/-- C4: every invocation of either handler returns exactly one of two
result shapes — a mapping with "choices" and no "error", or a mapping
with "error" and no "choices" — never both fields and never anything
else. -/
theorem handler_result_dichotomy (env : Env) (st : ModelState) (job : Job) :
    (((handler env st job).1.hasField "choices" = true ∧
      (handler env st job).1.hasField "error" = false) ∨
     ((handler env st job).1.hasField "error" = true ∧
      (handler env st job).1.hasField "choices" = false)) ∧
    (((simple_handler job).hasField "choices" = true ∧
      (simple_handler job).hasField "error" = false) ∨
     ((simple_handler job).hasField "error" = true ∧
      (simple_handler job).hasField "choices" = false)) := by
  constructor
  · rcases handler_fst_cases env st job with ⟨e, h⟩ | h | ⟨resp, pt, ct, h⟩
    · rw [h]; exact Or.inr ⟨rfl, rfl⟩
    · rw [h]; exact Or.inr ⟨rfl, rfl⟩
    · rw [h]; exact Or.inl ⟨rfl, rfl⟩
  · dsimp only [simple_handler]
    split
    · exact Or.inr ⟨rfl, rfl⟩
    · exact Or.inl ⟨rfl, rfl⟩

/-- C6: model loading is lazy and memoized by the process-wide flag: a
successful `load_model` leaves `model_loaded` set, and once the flag is
set `load_model` returns immediately, leaving `model`, `tokenizer` and
`model_loaded` (the whole state) unchanged — so the model loads at most
once per process. -/
theorem load_model_memoized (env : Env) (st : ModelState) :
    (st.model_loaded = true → load_model env st = (Except.ok (), st)) ∧
    ((load_model env st).1 = Except.ok () → (load_model env st).2.model_loaded = true) := by
  constructor
  · intro h
    unfold load_model
    rw [if_pos h]
  · intro h
    unfold load_model at h ⊢
    by_cases hl : st.model_loaded = true
    · rw [if_pos hl] at h ⊢
      exact hl
    · rw [if_neg hl] at h ⊢
      cases htok : env.loadTokenizer with
      | error e2 =>
        rw [htok] at h
        exact Except.noConfusion h
      | ok tok =>
        rw [htok] at h
        cases hm : env.loadModelWeights with
        | error e2 =>
          rw [hm] at h
          exact Except.noConfusion h
        | ok m => rfl

/-- Witness for C6: on an already-loaded state `load_model` is the
identity, and a fresh successful load sets the flag. -/
theorem load_model_memoized_witness :
    load_model testEnv loadedState = (Except.ok (), loadedState) ∧
    (load_model testEnv initialState).2.model_loaded = true :=
  ⟨(load_model_memoized testEnv loadedState).1 rfl,
   (load_model_memoized testEnv initialState).2 rfl⟩

/-- C7: no request data survives the request: the post-state of
`handler` is exactly the state `load_model` produces — the process-wide
model, tokenizer and loaded-flag globals — and is the same whatever job
was submitted.  The job itself is immutable in this embedding, matching
the source, which never writes into the job mapping. -/
theorem handler_state_frame (env : Env) (st : ModelState) (job : Job) :
    (handler env st job).2 = (load_model env st).2 ∧
    ∀ job2 : Job, (handler env st job).2 = (handler env st job2).2 :=
  ⟨handler_snd env st job,
   fun job2 => (handler_snd env st job).trans (handler_snd env st job2).symm⟩

/-- C9: whenever either handler returns a success mapping (one with a
"choices" field), its "usage" mapping satisfies
total_tokens = prompt_tokens + completion_tokens exactly. -/
theorem usage_total_sum (env : Env) (st : ModelState) (job : Job) :
    ((handler env st job).1.hasField "choices" = true →
      ∃ pt ct : Nat, (handler env st job).1.getField "usage" =
        some (usageObj pt ct (pt + ct))) ∧
    ((simple_handler job).hasField "choices" = true →
      ∃ pt ct : Nat, (simple_handler job).getField "usage" =
        some (usageObj pt ct (pt + ct))) := by
  constructor
  · intro h
    rcases handler_fst_cases env st job with ⟨e, hr⟩ | hr | ⟨resp, pt, ct, hr⟩
    · rw [hr] at h
      exact Bool.noConfusion h
    · rw [hr] at h
      exact Bool.noConfusion h
    · rw [hr]
      exact ⟨pt, ct, rfl⟩
  · intro h
    dsimp only [simple_handler] at h ⊢
    by_cases hc : List.isEmpty ((job.input.getD emptyInput).messages.getD []) = true
    · rw [if_pos hc] at h
      exact Bool.noConfusion h
    · rw [if_neg hc]
      exact ⟨_, _, rfl⟩

/-- Witness for C9 on a concrete job under a concrete all-succeeding
oracle, for both handlers. -/
theorem usage_total_sum_witness :
    (∃ pt ct : Nat, (handler testEnv initialState job1).1.getField "usage" =
      some (usageObj pt ct (pt + ct))) ∧
    (∃ pt ct : Nat, (simple_handler job1).getField "usage" =
      some (usageObj pt ct (pt + ct))) :=
  ⟨(usage_total_sum testEnv initialState job1).1 rfl,
   (usage_total_sum testEnv initialState job1).2 rfl⟩

/-- C10: the echo handler answers a non-empty messages list (written as
some prefix followed by a last message) with the single choice whose
content is exactly "Echo: " followed by the last message's content; the
prefix has no effect on the choice, and the handler is a pure function,
hence deterministic. -/
theorem simple_echo_content (ms : List Message) (m : Message)
    (mt : Option Int) (tmp tp : Option Rat) :
    ((simple_handler ⟨some ⟨some (ms ++ [m]), mt, tmp, tp⟩⟩).getField "choices" =
      some (JValue.list [JValue.obj [("message", JValue.obj [
        ("role", JValue.str "assistant"),
        ("content", JValue.str ("Echo: " ++ m.getContent))])]])) ∧
    (∀ ms2 : List Message,
      (simple_handler ⟨some ⟨some (ms ++ [m]), mt, tmp, tp⟩⟩).getField "choices" =
        (simple_handler ⟨some ⟨some (ms2 ++ [m]), mt, tmp, tp⟩⟩).getField "choices") := by
  have key : ∀ (ms3 : List Message),
      (simple_handler ⟨some ⟨some (ms3 ++ [m]), mt, tmp, tp⟩⟩).getField "choices" =
        some (JValue.list [JValue.obj [("message", JValue.obj [
          ("role", JValue.str "assistant"),
          ("content", JValue.str ("Echo: " ++ m.getContent))])]]) := by
    intro ms3
    simp only [simple_handler, Option.getD_some]
    rw [if_neg]
    · rw [List.getLast?_concat]
      rfl
    · simp
  exact ⟨key ms, fun ms2 => (key ms).trans (key ms2).symm⟩

end WazeApp
